import Mathlib

/-!
Verification of the trading-bot simulation core against its design
specification.  Python floats are modelled as exact rationals (`ℚ`),
wall-clock timestamps as integers passed explicitly, and the numpy
random generator as explicit streams of draws.  Each definition is a
direct transliteration of the corresponding Python function.
-/

namespace TradingBot

/-! ## Ledger / Vault (src/strategies/virtual_vault.py) -/

/-- One entry of `VirtualVault.trade_history` (the dict appended by
`execute_trade`). -/
structure TradeRecord where
  timestamp : ℤ
  action : String
  price : ℚ
  usdt_amount : ℚ
  btc_amount : ℚ
  usdt_balance : ℚ
  btc_balance : ℚ
  deriving Repr, DecidableEq

/-- One entry of `VirtualVault.portfolio_history` (the dict appended by
`update_market_price`). -/
structure PortfolioRecord where
  timestamp : ℤ
  btc_price : ℚ
  btc_balance : ℚ
  usdt_balance : ℚ
  portfolio_value : ℚ
  total_return : ℚ
  daily_return : ℚ
  deriving Repr, DecidableEq

/-- The mutable state of a `VirtualVault` instance. -/
structure VirtualVault where
  btc_balance : ℚ
  usdt_balance : ℚ
  trade_history : List TradeRecord
  portfolio_history : List PortfolioRecord
  initial_portfolio_value : Option ℚ
  deriving Repr, DecidableEq

namespace VirtualVault

/-- `VirtualVault.get_total_value_usd`. -/
def get_total_value_usd (v : VirtualVault) (current_price : ℚ) : ℚ :=
  v.usdt_balance + v.btc_balance * current_price

/-- `VirtualVault.update_market_price`: appends one valuation record and
sets the baseline `initial_portfolio_value` if it is still unset.  The
`ts` argument stands for `datetime.now()`. -/
def update_market_price (v : VirtualVault) (price : ℚ) (ts : ℤ) : VirtualVault :=
  let portfolio_value := v.get_total_value_usd price
  let ipv := v.initial_portfolio_value.getD portfolio_value
  let total_return := if ipv > 0 then (portfolio_value / ipv - 1) * 100 else 0
  let daily_return :=
    match v.portfolio_history.getLast? with
    | some last =>
        if last.portfolio_value > 0 then (portfolio_value / last.portfolio_value - 1) * 100
        else 0
    | none => 0
  { v with
    initial_portfolio_value := some ipv
    portfolio_history := v.portfolio_history ++
      [{ timestamp := ts, btc_price := price, btc_balance := v.btc_balance,
         usdt_balance := v.usdt_balance, portfolio_value := portfolio_value,
         total_return := total_return, daily_return := daily_return }] }

/-- `VirtualVault.__init__`: fields are initialised and then
`update_market_price(90000)` records the initial state. -/
def mkVault (initial_btc initial_usdt : ℚ) (ts : ℤ) : VirtualVault :=
  update_market_price
    { btc_balance := initial_btc, usdt_balance := initial_usdt,
      trade_history := [], portfolio_history := [],
      initial_portfolio_value := none } 90000 ts

/-- `VirtualVault.execute_trade`: returns the Python boolean result
together with the vault state after the call. -/
def execute_trade (v : VirtualVault) (action : String) (amount price : ℚ)
    (ts : ℤ) : Bool × VirtualVault :=
  if action = "BUY" then
    let btc_amount := amount / price
    if amount > v.usdt_balance then (false, v)
    else
      let v1 : VirtualVault := { v with
        usdt_balance := v.usdt_balance - amount
        btc_balance := v.btc_balance + btc_amount }
      let v2 : VirtualVault := { v1 with trade_history := v1.trade_history ++
        [{ timestamp := ts, action := "BUY", price := price, usdt_amount := amount,
           btc_amount := btc_amount, usdt_balance := v1.usdt_balance,
           btc_balance := v1.btc_balance }] }
      (true, v2.update_market_price price ts)
  else if action = "SELL" then
    let usdt_amount := amount * price
    if amount > v.btc_balance then (false, v)
    else
      let v1 : VirtualVault := { v with
        btc_balance := v.btc_balance - amount
        usdt_balance := v.usdt_balance + usdt_amount }
      let v2 : VirtualVault := { v1 with trade_history := v1.trade_history ++
        [{ timestamp := ts, action := "SELL", price := price, usdt_amount := usdt_amount,
           btc_amount := amount, usdt_balance := v1.usdt_balance,
           btc_balance := v1.btc_balance }] }
      (true, v2.update_market_price price ts)
  else if action = "RESET" then
    let old_btc := v.btc_balance
    let old_usdt := v.usdt_balance
    let v1 : VirtualVault := { v with btc_balance := (0.0032 : ℚ), usdt_balance := (150 : ℚ) }
    let v2 : VirtualVault := { v1 with trade_history := v1.trade_history ++
      [{ timestamp := ts, action := "RESET", price := price,
         usdt_amount := |v1.usdt_balance - old_usdt|,
         btc_amount := |v1.btc_balance - old_btc|,
         usdt_balance := v1.usdt_balance, btc_balance := v1.btc_balance }] }
    (true, v2.update_market_price price ts)
  else
    (true, v.update_market_price price ts)

/-- The shape returned by `VirtualVault.to_dict` (every key the Python
dict carries). -/
structure VaultDict where
  btc_balance : ℚ
  usdt_balance : ℚ
  trade_history : List TradeRecord
  portfolio_history : List PortfolioRecord
  initial_portfolio_value : Option ℚ
  deriving Repr, DecidableEq

/-- `VirtualVault.to_dict`. -/
def to_dict (v : VirtualVault) : VaultDict :=
  { btc_balance := v.btc_balance, usdt_balance := v.usdt_balance,
    trade_history := v.trade_history, portfolio_history := v.portfolio_history,
    initial_portfolio_value := v.initial_portfolio_value }

/-- `VirtualVault.from_dict`: constructs a fresh vault from the stored
balances (running `__init__`, hence one discarded valuation at 90000) and
then overwrites both histories and the baseline from the data. -/
def from_dict (data : VaultDict) (ts : ℤ) : VirtualVault :=
  { mkVault data.btc_balance data.usdt_balance ts with
    trade_history := data.trade_history
    portfolio_history := data.portfolio_history
    initial_portfolio_value := data.initial_portfolio_value }

end VirtualVault

/-! ## Signal rule, fear/greed variant (src/strategies/fear_greed.py) -/

namespace FearGreed

/-- `fear_greed.get_live_trade_signal` on the path where a numeric
`fg_index` is supplied (the `fg_index is None` branch substitutes a
random draw and is out of this rule's domain). -/
def get_live_trade_signal (fg_index : ℤ) (usdt_balance btc_balance : ℚ)
    (fg_fear fg_greed : ℤ) : String × ℚ :=
  if btc_balance ≥ 0.015 then ("RESET", btc_balance)
  else if fg_index < fg_fear ∧ usdt_balance > 0 then ("BUY", usdt_balance * 0.75)
  else if fg_index > fg_greed ∧ btc_balance > 0 then ("SELL", btc_balance * 0.25)
  else ("HOLD", 0)

/-- One output row of `fear_greed.run_backtest`. -/
structure FGRow where
  date : ℤ
  price : ℚ
  fg_index : ℤ
  action : String
  usdc_before : ℚ
  btc_before : ℚ
  usdc_after : ℚ
  btc_after : ℚ
  portfolio_value : ℚ
  deriving Repr, DecidableEq

/-- The daily loop of `fear_greed.run_backtest`.  `noise i` stands for the
`i`-th draw of `np.random.normal(0.002, 0.022)` and `fgs i` for the `i`-th
draw of `np.random.randint(0, 100)` after the fixed `np.random.seed(42)`;
`i` counts loop iterations. -/
def fgLoop (fg_fear fg_greed : ℤ) (noise : ℕ → ℚ) (fgs : ℕ → ℤ) :
    ℚ → ℚ → ℚ → ℕ → List ℤ → List FGRow
  | _, _, _, _, [] => []
  | usdc_balance, btc_balance, btc_price, i, date :: rest =>
    let price1 := btc_price * (1 + noise i)
    let fg_index := fgs i
    let portfolio_value := usdc_balance + btc_balance * price1
    let sig := get_live_trade_signal fg_index usdc_balance btc_balance fg_fear fg_greed
    let balances :=
      if sig.1 = "BUY" then (usdc_balance - sig.2, btc_balance + sig.2 / price1)
      else if sig.1 = "SELL" then (usdc_balance + sig.2 * price1, btc_balance - sig.2)
      else if sig.1 = "RESET" then ((150 : ℚ), (0.0032 : ℚ))
      else (usdc_balance, btc_balance)
    { date := date, price := price1, fg_index := fg_index, action := sig.1,
      usdc_before := usdc_balance, btc_before := btc_balance,
      usdc_after := balances.1, btc_after := balances.2,
      portfolio_value := portfolio_value } ::
      fgLoop fg_fear fg_greed noise fgs balances.1 balances.2 price1 (i + 1) rest

/-- `fear_greed.run_backtest`.  `now` stands for `datetime.now()` (in days),
so the simulated dates are `now - days, ..., now` (`pd.date_range` includes
both endpoints); `init_noise` stands for the initial
`np.random.normal(0, 2000)` draw. -/
def run_backtest (start_usdc start_btc : ℚ) (fg_fear fg_greed : ℤ) (days : ℕ)
    (now : ℤ) (init_noise : ℚ) (noise : ℕ → ℚ) (fgs : ℕ → ℤ) : List FGRow :=
  let dates := (List.range (days + 1)).map (fun i => now - days + i)
  fgLoop fg_fear fg_greed noise fgs start_usdc start_btc (90000 + init_noise) 0 dates

end FearGreed

/-! ## Signal rule and driver, script variant (src/scripts/backtest.py) -/

namespace Backtest

/-- `scripts/backtest.get_live_trade_signal` on the path where a numeric
`fg_value` is supplied. -/
def get_live_trade_signal (fg_value : ℤ) (current_usdc current_btc : ℚ)
    (fg_fear fg_greed : ℤ) : String × ℚ :=
  if fg_value < fg_fear ∧ current_usdc > 0 then ("BUY", current_usdc * 0.5)
  else if fg_value > fg_greed ∧ current_btc > 0 then ("SELL", current_btc * 0.5)
  else if current_btc ≥ 0.011 then ("RESET", 0)
  else ("HOLD", 0)

/-- One row of the data frame `scripts/backtest.run_backtest` iterates over
(as produced by `generate_mock_data`). -/
structure BacktestRow where
  date : ℤ
  price : ℚ
  fg_value : ℤ
  fg_class : String
  deriving Repr, DecidableEq

/-- One entry of the `trade_log` built by `scripts/backtest.run_backtest`. -/
structure TradeLogRow where
  date : ℤ
  price : ℚ
  fg_value : ℤ
  fg_class : String
  action : String
  usdc_before : ℚ
  btc_before : ℚ
  usdc_after : ℚ
  btc_after : ℚ
  portfolio_value : ℚ
  deriving Repr, DecidableEq

/-- The body of the daily loop of `scripts/backtest.run_backtest`: strategy
application (BUY on fear, SELL on greed), then the RESET override once
`btc_balance >= 0.011`, then the appended log entry. -/
def backtestStep (fg_fear fg_greed : ℤ) (usdc_balance btc_balance : ℚ)
    (row : BacktestRow) : TradeLogRow :=
  let portfolio_value := usdc_balance + btc_balance * row.price
  let step1 :=
    if row.fg_value < fg_fear ∧ usdc_balance > 0 then
      let buy_amount_usdc := usdc_balance * 0.5
      ("BUY", usdc_balance - buy_amount_usdc, btc_balance + buy_amount_usdc / row.price)
    else if row.fg_value > fg_greed ∧ btc_balance > 0 then
      let sell_amount_btc := btc_balance * 0.5
      ("SELL", usdc_balance + sell_amount_btc * row.price, btc_balance - sell_amount_btc)
    else ("HOLD", usdc_balance, btc_balance)
  let step2 :=
    if step1.2.2 ≥ 0.011 then ("RESET", (200 : ℚ), (0.0022 : ℚ)) else step1
  { date := row.date, price := row.price, fg_value := row.fg_value,
    fg_class := row.fg_class, action := step2.1,
    usdc_before := usdc_balance, btc_before := btc_balance,
    usdc_after := step2.2.1, btc_after := step2.2.2,
    portfolio_value := portfolio_value }

/-- The daily loop of `scripts/backtest.run_backtest` over the rows of the
input data frame, threading the balances. -/
def backtestLoop (fg_fear fg_greed : ℤ) : ℚ → ℚ → List BacktestRow → List TradeLogRow
  | _, _, [] => []
  | usdc_balance, btc_balance, row :: rest =>
    let r := backtestStep fg_fear fg_greed usdc_balance btc_balance row
    r :: backtestLoop fg_fear fg_greed r.usdc_after r.btc_after rest

/-- `scripts/backtest.run_backtest`, parameterised by the data series the
source obtains from `generate_mock_data` (the loop performs no validation
of the series). -/
def run_backtest (start_usdc start_btc : ℚ) (fg_fear fg_greed : ℤ)
    (df : List BacktestRow) : List TradeLogRow :=
  backtestLoop fg_fear fg_greed start_usdc start_btc df

end Backtest

/-! ## Dual-order strategy (src/strategies/dual_trade.py) -/

/-- One of the two conditional orders built by
`DualTradeStrategy.generate_orders`. -/
structure Order where
  type : String
  price : ℚ
  btc_amount : ℚ
  usdt_amount : ℚ
  deriving Repr, DecidableEq

/-- The configuration fields of a `DualTradeStrategy` instance, after
`__init__` has divided the three percentages by 100. -/
structure DualTradeStrategy where
  base_btc : ℚ
  usdt_reserve : ℚ
  buy_discount : ℚ
  sell_premium : ℚ
  reinvest_rate : ℚ
  deriving Repr, DecidableEq

namespace DualTradeStrategy

/-- `DualTradeStrategy.__init__`: percentages are converted to decimals. -/
def mkStrategy (base_btc usdt_reserve buy_discount sell_premium reinvest_rate : ℚ) :
    DualTradeStrategy :=
  { base_btc := base_btc, usdt_reserve := usdt_reserve,
    buy_discount := buy_discount / 100, sell_premium := sell_premium / 100,
    reinvest_rate := reinvest_rate / 100 }

/-- `DualTradeStrategy.generate_orders`. -/
def generate_orders (s : DualTradeStrategy) (current_price : ℚ) : Order × Order :=
  let buy_price := current_price * (1 - s.buy_discount)
  let sell_price := current_price * (1 + s.sell_premium)
  let buy_usdt_amount := s.usdt_reserve * 0.7
  let buy_btc_amount := buy_usdt_amount / buy_price
  let sell_btc_amount := s.base_btc * 0.3
  ({ type := "BUY", price := buy_price, btc_amount := buy_btc_amount,
     usdt_amount := buy_usdt_amount },
   { type := "SELL", price := sell_price, btc_amount := sell_btc_amount,
     usdt_amount := sell_btc_amount * sell_price })

/-- The outcome of one day of `DualTradeStrategy.run_backtest`. -/
structure DualStepResult where
  action : String
  trade_price : ℚ
  btc_balance : ℚ
  usdt_balance : ℚ
  deriving Repr, DecidableEq

/-- The order-fill logic of one iteration of
`DualTradeStrategy.run_backtest`: order generation, fill tests against the
day's low/high band, BUY-priority conflict resolution, and the balance
updates of the filled order (including the reinvestment top-up on SELL). -/
def dualTradeStep (s : DualTradeStrategy) (btc_balance usdt_balance btc_price
    day_low day_high : ℚ) : DualStepResult :=
  let orders := s.generate_orders btc_price
  let buy_order := orders.1
  let sell_order := orders.2
  let buy_filled := day_low ≤ buy_order.price
  let sell_filled0 := day_high ≥ sell_order.price
  let sell_filled := if buy_filled ∧ sell_filled0 then false else sell_filled0
  if buy_filled then
    { action := "BUY", trade_price := buy_order.price,
      btc_balance := btc_balance + buy_order.btc_amount,
      usdt_balance := usdt_balance - buy_order.usdt_amount }
  else if sell_filled then
    let btc_sold := sell_order.btc_amount
    let usdt_gained := sell_order.usdt_amount
    let profit := usdt_gained - btc_sold * btc_price
    { action := "SELL", trade_price := sell_order.price,
      btc_balance := btc_balance - btc_sold,
      usdt_balance := usdt_balance + usdt_gained + profit * s.reinvest_rate }
  else
    { action := "HOLD", trade_price := btc_price,
      btc_balance := btc_balance, usdt_balance := usdt_balance }

end DualTradeStrategy

/-- A concrete malformed input series for the simulation driver: its
timestamps are non-monotonic (1 then 0) and its first price is negative. -/
def malformedSeries : List Backtest.BacktestRow :=
  [{ date := 1, price := -1, fg_value := 20, fg_class := "Fear" },
   { date := 0, price := 30000, fg_value := 50, fg_class := "Neutral" }]

/-! ## Projection lemmas (the vault operations leave these fields in place) -/

@[simp] theorem VirtualVault.update_market_price_btc_balance (v : VirtualVault)
    (p : ℚ) (ts : ℤ) : (v.update_market_price p ts).btc_balance = v.btc_balance := rfl

@[simp] theorem VirtualVault.update_market_price_usdt_balance (v : VirtualVault)
    (p : ℚ) (ts : ℤ) : (v.update_market_price p ts).usdt_balance = v.usdt_balance := rfl

@[simp] theorem VirtualVault.update_market_price_trade_history (v : VirtualVault)
    (p : ℚ) (ts : ℤ) : (v.update_market_price p ts).trade_history = v.trade_history := rfl

@[simp] theorem VirtualVault.mkVault_btc_balance (b u : ℚ) (ts : ℤ) :
    (VirtualVault.mkVault b u ts).btc_balance = b := rfl

@[simp] theorem VirtualVault.mkVault_usdt_balance (b u : ℚ) (ts : ℤ) :
    (VirtualVault.mkVault b u ts).usdt_balance = u := rfl

@[simp] theorem VirtualVault.mkVault_trade_history (b u : ℚ) (ts : ℤ) :
    (VirtualVault.mkVault b u ts).trade_history = [] := rfl

/-! ## Claim theorems -/

/-- C1 (amended): in the fear/greed variant of the signal rule, whenever the
volatile (BTC) balance is at or above that variant's reset trigger 0.015,
the decision is RESET with the full volatile balance — for every index
value, every reserve balance and all thresholds, so RESET has first
precedence there, overriding BUY and SELL. -/
theorem C1_reset_has_first_precedence (fg_index : ℤ) (usdt_balance btc_balance : ℚ)
    (fg_fear fg_greed : ℤ) (h : btc_balance ≥ 0.015) :
    FearGreed.get_live_trade_signal fg_index usdt_balance btc_balance fg_fear fg_greed
      = ("RESET", btc_balance) := by
  simp [FearGreed.get_live_trade_signal, h]

/-- C1 witness: at index 10 (below the fear threshold, so BUY would also
fire) with reserve 100 and volatile balance exactly 0.015, the fear/greed
rule still answers RESET. -/
theorem C1_reset_has_first_precedence_witness :
    (0.015 : ℚ) ≥ 0.015 ∧
      FearGreed.get_live_trade_signal 10 100 0.015 35 65 = ("RESET", 0.015) :=
  ⟨by norm_num, C1_reset_has_first_precedence 10 100 0.015 35 65 (by norm_num)⟩

/-- C1 counterexample: the script variant of the signal rule checks BUY and
SELL before RESET, so at the reset trigger 0.011 (the trigger value the
claim itself cites) with index 20 and reserve 100 it answers BUY, not
RESET — RESET does not have first precedence in that variant. -/
theorem C1_script_variant_checks_buy_first :
    Backtest.get_live_trade_signal 20 100 0.011 40 60 = ("BUY", 50) ∧
      (Backtest.get_live_trade_signal 20 100 0.011 40 60).1 ≠ "RESET" := by
  constructor
  · norm_num [Backtest.get_live_trade_signal]
  · norm_num [Backtest.get_live_trade_signal]
    decide

/-- C2: a BUY request whose amount strictly exceeds the reserve (USDT)
balance returns failure and leaves the vault — and therefore its entire
`to_dict` serialization: both balances, both histories and the baseline —
exactly as it was. -/
theorem C2_insufficient_buy_rejected_without_mutation (v : VirtualVault)
    (amount price : ℚ) (ts : ℤ) (h : amount > v.usdt_balance) :
    v.execute_trade "BUY" amount price ts = (false, v) ∧
      (v.execute_trade "BUY" amount price ts).2.to_dict = v.to_dict := by
  have key : v.execute_trade "BUY" amount price ts = (false, v) := by
    simp [VirtualVault.execute_trade, h]
  exact ⟨key, by rw [key]⟩

/-- C2 witness: buying 200 USDT worth against a freshly created vault
holding 100 USDT fails and leaves the vault unchanged. -/
theorem C2_insufficient_buy_rejected_witness :
    (200 : ℚ) > (VirtualVault.mkVault 0.001 100 0).usdt_balance ∧
      ((VirtualVault.mkVault 0.001 100 0).execute_trade "BUY" 200 50000 1
          = (false, VirtualVault.mkVault 0.001 100 0) ∧
        ((VirtualVault.mkVault 0.001 100 0).execute_trade "BUY" 200 50000 1).2.to_dict
          = (VirtualVault.mkVault 0.001 100 0).to_dict) :=
  ⟨by decide,
   C2_insufficient_buy_rejected_without_mutation
     (VirtualVault.mkVault 0.001 100 0) 200 50000 1 (by decide)⟩

/-- C3: deserializing the serialization of any vault reproduces the vault
exactly — both balances, the full trade history and portfolio history
(every record, in order) and the baseline portfolio value. -/
theorem C3_serialization_roundtrip (v : VirtualVault) (ts : ℤ) :
    VirtualVault.from_dict v.to_dict ts = v := by
  cases v; rfl

/-- C4: starting from non-negative balances, every successful
`execute_trade` with action BUY, SELL or RESET, a non-negative amount and
a positive price leaves both balances non-negative. -/
theorem C4_balances_stay_nonneg (v : VirtualVault) (action : String)
    (amount price : ℚ) (ts : ℤ)
    (hr : 0 ≤ v.usdt_balance) (hv : 0 ≤ v.btc_balance)
    (ha : 0 ≤ amount) (hp : 0 < price)
    (hact : action = "BUY" ∨ action = "SELL" ∨ action = "RESET")
    (hs : (v.execute_trade action amount price ts).1 = true) :
    0 ≤ (v.execute_trade action amount price ts).2.usdt_balance ∧
      0 ≤ (v.execute_trade action amount price ts).2.btc_balance := by
  rcases hact with h | h | h <;> subst h
  · by_cases hgt : amount > v.usdt_balance
    · simp [VirtualVault.execute_trade, hgt] at hs
    · constructor <;>
        simp [VirtualVault.execute_trade, hgt, VirtualVault.update_market_price]
      · linarith [not_lt.mp hgt]
      · have := div_nonneg ha hp.le
        linarith
  · by_cases hgt : amount > v.btc_balance
    · simp [VirtualVault.execute_trade, hgt] at hs
    · constructor <;>
        simp [VirtualVault.execute_trade, hgt, VirtualVault.update_market_price]
      · have := mul_nonneg ha hp.le
        linarith
      · linarith [not_lt.mp hgt]
  · constructor <;>
      simp [VirtualVault.execute_trade, VirtualVault.update_market_price] <;>
      norm_num

/-- C4 witness: a successful BUY of 1 USDT at price 2 from a fresh vault
(balances 0.001 BTC, 100 USDT) keeps both balances non-negative. -/
theorem C4_balances_stay_nonneg_witness :
    ((VirtualVault.mkVault 0.001 100 0).execute_trade "BUY" 1 2 1).1 = true ∧
      (0 ≤ ((VirtualVault.mkVault 0.001 100 0).execute_trade "BUY" 1 2 1).2.usdt_balance ∧
        0 ≤ ((VirtualVault.mkVault 0.001 100 0).execute_trade "BUY" 1 2 1).2.btc_balance) :=
  ⟨by norm_num [VirtualVault.execute_trade],
   C4_balances_stay_nonneg (VirtualVault.mkVault 0.001 100 0) "BUY" 1 2 1
     (by norm_num) (by norm_num) (by norm_num) (by norm_num) (Or.inl rfl)
     (by norm_num [VirtualVault.execute_trade])⟩

/-- C5: in the dual-order backtest step, whenever the day's low reaches the
buy band and the day's high reaches the sell band, the recorded action is
BUY (never SELL, never both) and exactly the buy order's balance effects
are applied. -/
theorem C5_buy_priority_on_double_fill (s : DualTradeStrategy)
    (btc_balance usdt_balance btc_price day_low day_high : ℚ)
    (hbuy : day_low ≤ (s.generate_orders btc_price).1.price)
    (hsell : day_high ≥ (s.generate_orders btc_price).2.price) :
    s.dualTradeStep btc_balance usdt_balance btc_price day_low day_high =
      { action := "BUY",
        trade_price := (s.generate_orders btc_price).1.price,
        btc_balance := btc_balance + (s.generate_orders btc_price).1.btc_amount,
        usdt_balance := usdt_balance - (s.generate_orders btc_price).1.usdt_amount } := by
  simp [DualTradeStrategy.dualTradeStep, hbuy]

/-- C5 witness: with the default-like strategy (4% bands) at price 100 and
a day band of [90, 110], both orders would fill and the step records a BUY
applying exactly the buy order's effects. -/
theorem C5_buy_priority_on_double_fill_witness :
    ((90 : ℚ) ≤ ((DualTradeStrategy.mkStrategy 0.001 100 4 4 50).generate_orders 100).1.price ∧
      (110 : ℚ) ≥ ((DualTradeStrategy.mkStrategy 0.001 100 4 4 50).generate_orders 100).2.price) ∧
      (DualTradeStrategy.mkStrategy 0.001 100 4 4 50).dualTradeStep 0.001 100 100 90 110 =
        { action := "BUY",
          trade_price := ((DualTradeStrategy.mkStrategy 0.001 100 4 4 50).generate_orders 100).1.price,
          btc_balance := 0.001 + ((DualTradeStrategy.mkStrategy 0.001 100 4 4 50).generate_orders 100).1.btc_amount,
          usdt_balance := 100 - ((DualTradeStrategy.mkStrategy 0.001 100 4 4 50).generate_orders 100).1.usdt_amount } :=
  ⟨⟨by norm_num [DualTradeStrategy.generate_orders, DualTradeStrategy.mkStrategy],
    by norm_num [DualTradeStrategy.generate_orders, DualTradeStrategy.mkStrategy]⟩,
   C5_buy_priority_on_double_fill (DualTradeStrategy.mkStrategy 0.001 100 4 4 50)
     0.001 100 100 90 110
     (by norm_num [DualTradeStrategy.generate_orders, DualTradeStrategy.mkStrategy])
     (by norm_num [DualTradeStrategy.generate_orders, DualTradeStrategy.mkStrategy])⟩

/-- C6 (code evaluation at the failing input): the simulation driver
validates nothing.  Run on `malformedSeries` — whose timestamps go
backwards and whose first price is negative — it processes both rows
instead of rejecting the series: it records a BUY against the negative
price and drives the BTC balance to -49.9989, i.e. balance mutations and
appended records are produced from malformed data. -/
theorem C6_malformed_series_is_processed :
    (Backtest.run_backtest 100 0.0011 40 60 malformedSeries).map
        Backtest.TradeLogRow.action = ["BUY", "HOLD"] ∧
      (Backtest.run_backtest 100 0.0011 40 60 malformedSeries).map
        Backtest.TradeLogRow.btc_after = [-49.9989, -49.9989] := by
  norm_num [Backtest.run_backtest, Backtest.backtestLoop, Backtest.backtestStep,
    malformedSeries]

/-- C7 counterexample: the output's date column is derived from the wall
clock (`datetime.now()`), which is neither an input parameter nor covered
by the random seed: two runs with identical parameters and identical
seeded draws, started one day apart, produce different output rows. -/
theorem C7_output_depends_on_clock :
    FearGreed.run_backtest 100 0.0011 35 65 0 0 0 (fun _ => 0) (fun _ => 50) ≠
      FearGreed.run_backtest 100 0.0011 35 65 0 1 0 (fun _ => 0) (fun _ => 50) := by
  have h1 : (FearGreed.run_backtest 100 0.0011 35 65 0 0 0 (fun _ => 0)
      (fun _ => 50)).map FearGreed.FGRow.date = [0] := by
    norm_num [FearGreed.run_backtest, FearGreed.fgLoop, FearGreed.get_live_trade_signal]
  have h2 : (FearGreed.run_backtest 100 0.0011 35 65 0 1 0 (fun _ => 0)
      (fun _ => 50)).map FearGreed.FGRow.date = [1] := by
    norm_num [FearGreed.run_backtest, FearGreed.fgLoop, FearGreed.get_live_trade_signal]
  intro h
  rw [h, h2] at h1
  exact absurd h1 (by decide)

/-- C7 (amended): with the invocation clock time also held fixed, the
simulation is deterministic — identical parameters and pointwise-identical
seeded random draw streams yield identical output sequences, every field
of every row. -/
theorem C7_deterministic_given_seed_and_clock (start_usdc start_btc : ℚ)
    (fg_fear fg_greed : ℤ) (days : ℕ) (now : ℤ) (init1 init2 : ℚ)
    (noise1 noise2 : ℕ → ℚ) (fgs1 fgs2 : ℕ → ℤ)
    (hinit : init1 = init2) (hnoise : ∀ i, noise1 i = noise2 i)
    (hfgs : ∀ i, fgs1 i = fgs2 i) :
    FearGreed.run_backtest start_usdc start_btc fg_fear fg_greed days now init1 noise1 fgs1
      = FearGreed.run_backtest start_usdc start_btc fg_fear fg_greed days now init2 noise2 fgs2 := by
  subst hinit
  have hn : noise1 = noise2 := funext hnoise
  have hf : fgs1 = fgs2 := funext hfgs
  rw [hn, hf]

/-- C7 witness: two concrete runs with the same parameters, the same clock
time, and pointwise-equal draw streams coincide. -/
theorem C7_deterministic_witness :
    FearGreed.run_backtest 100 0.0011 35 65 1 5 0 (fun _ => 0) (fun _ => 50)
      = FearGreed.run_backtest 100 0.0011 35 65 1 5 0
          (fun i => 0 * (i : ℚ)) (fun i => 50 + 0 * (i : ℤ)) := by
  refine C7_deterministic_given_seed_and_clock 100 0.0011 35 65 1 5 0 0
    (fun _ => 0) (fun i => 0 * (i : ℚ)) (fun _ => 50) (fun i => 50 + 0 * (i : ℤ))
    rfl ?_ ?_
  · intro i
    ring
  · intro i
    ring

/-- C8 counterexample: the fear/greed variant of the signal rule buys 75%
of the reserve, so at index 20 with thresholds 40/60, reserve 100 and
volatile 0 it returns (BUY, 75), not (BUY, 50). -/
theorem C8_fear_greed_variant_buys_three_quarters :
    FearGreed.get_live_trade_signal 20 100 0 40 60 = ("BUY", 75) ∧
      FearGreed.get_live_trade_signal 20 100 0 40 60 ≠ ("BUY", 50) := by
  constructor
  · norm_num [FearGreed.get_live_trade_signal]
  · norm_num [FearGreed.get_live_trade_signal]

/-- C8 (amended): the script variant of the signal rule, whose buy fraction
is 0.5, answers (BUY, 50) = (BUY, 100 * 0.5) at index 20 with thresholds
40/60, reserve 100 and volatile 0. -/
theorem C8_script_signal_buys_half :
    Backtest.get_live_trade_signal 20 100 0 40 60 = ("BUY", 50) ∧
      Backtest.get_live_trade_signal 20 100 0 40 60 = ("BUY", 100 * 0.5) := by
  constructor <;> norm_num [Backtest.get_live_trade_signal]

/-- C9: for any action string other than BUY, SELL and RESET,
`execute_trade` succeeds, leaves both balances and the trade history
untouched, and appends exactly one valuation record — priced at the given
price — to the portfolio history. -/
theorem C9_unhandled_action_only_marks_to_market (v : VirtualVault)
    (action : String) (amount price : ℚ) (ts : ℤ)
    (h1 : action ≠ "BUY") (h2 : action ≠ "SELL") (h3 : action ≠ "RESET") :
    (v.execute_trade action amount price ts).1 = true ∧
      (v.execute_trade action amount price ts).2.btc_balance = v.btc_balance ∧
      (v.execute_trade action amount price ts).2.usdt_balance = v.usdt_balance ∧
      (v.execute_trade action amount price ts).2.trade_history = v.trade_history ∧
      (v.execute_trade action amount price ts).2.portfolio_history.length
        = v.portfolio_history.length + 1 ∧
      (v.execute_trade action amount price ts).2.portfolio_history.take
          v.portfolio_history.length = v.portfolio_history ∧
      ((v.execute_trade action amount price ts).2.portfolio_history.getLast?.map
          PortfolioRecord.btc_price) = some price := by
  have key : v.execute_trade action amount price ts
      = (true, v.update_market_price price ts) := by
    unfold VirtualVault.execute_trade
    rw [if_neg h1, if_neg h2, if_neg h3]
  rw [key]
  refine ⟨rfl, rfl, rfl, rfl, ?_, ?_, ?_⟩
  · simp [VirtualVault.update_market_price]
  · simp [VirtualVault.update_market_price, List.take_left]
  · simp [VirtualVault.update_market_price]

/-- C9 witness: a HOLD against a fresh vault succeeds, changes no balance
and no trade record, and appends one valuation record at the given
price 80000. -/
theorem C9_unhandled_action_witness :
    ((VirtualVault.mkVault 0.001 100 0).execute_trade "HOLD" 5 80000 1).1 = true ∧
      ((VirtualVault.mkVault 0.001 100 0).execute_trade "HOLD" 5 80000 1).2.btc_balance
        = (VirtualVault.mkVault 0.001 100 0).btc_balance ∧
      ((VirtualVault.mkVault 0.001 100 0).execute_trade "HOLD" 5 80000 1).2.usdt_balance
        = (VirtualVault.mkVault 0.001 100 0).usdt_balance ∧
      ((VirtualVault.mkVault 0.001 100 0).execute_trade "HOLD" 5 80000 1).2.trade_history
        = (VirtualVault.mkVault 0.001 100 0).trade_history ∧
      ((VirtualVault.mkVault 0.001 100 0).execute_trade "HOLD" 5 80000 1).2.portfolio_history.length
        = (VirtualVault.mkVault 0.001 100 0).portfolio_history.length + 1 ∧
      ((VirtualVault.mkVault 0.001 100 0).execute_trade "HOLD" 5 80000 1).2.portfolio_history.take
          (VirtualVault.mkVault 0.001 100 0).portfolio_history.length
        = (VirtualVault.mkVault 0.001 100 0).portfolio_history ∧
      (((VirtualVault.mkVault 0.001 100 0).execute_trade "HOLD" 5 80000 1).2.portfolio_history.getLast?.map
          PortfolioRecord.btc_price) = some 80000 :=
  C9_unhandled_action_only_marks_to_market (VirtualVault.mkVault 0.001 100 0)
    "HOLD" 5 80000 1 (by decide) (by decide) (by decide)

/-- C10: constructing a fresh vault immediately records exactly one
valuation at the hardcoded price 90000 and fixes the return baseline to
initial_usdt + initial_btc * 90000, before any caller-supplied price is
seen. -/
theorem C10_fresh_vault_baseline (initial_btc initial_usdt : ℚ) (ts : ℤ) :
    (VirtualVault.mkVault initial_btc initial_usdt ts).portfolio_history.length = 1 ∧
      (VirtualVault.mkVault initial_btc initial_usdt ts).portfolio_history.map
          PortfolioRecord.btc_price = [90000] ∧
      (VirtualVault.mkVault initial_btc initial_usdt ts).initial_portfolio_value
        = some (initial_usdt + initial_btc * 90000) :=
  ⟨rfl, rfl, rfl⟩

end TradingBot
